import Mathlib

/-!
Verification of the tabular export formatter of this repository
(`public/app/features/runtime/init.ts`) and the export dialog
(`ShareReport`).  The TypeScript source is shallowly embedded below:
pure functions become Lean functions, JS exceptions become `Except Unit`,
JS `undefined`/optional values become `Option`, JS numbers become `ℚ`.
-/

namespace GrafanaExport

/-- A JavaScript value as it occurs in a field's raw value sequence. -/
inductive JsVal where
  | undef
  | nullV
  | num (q : ℚ)
  | str (s : String)
  | boolean (b : Bool)
deriving DecidableEq

/-- Field types of `@grafana/data`.  `other` stands for every `FieldType`
value other than the four the formatter treats explicitly
(`trace`, `geo`, `enum`, `frame`, ...). -/
inductive FieldType where
  | time
  | number
  | boolean
  | string
  | other
deriving DecidableEq

/-- Result of a field's display-formatting function.
Modelled from the spec: "an optional display-formatting function
(raw value -> human string + optional color)". -/
structure DisplayValue where
  text : String
  color : Option String
deriving DecidableEq

/-- Modelled from the spec: the external `@grafana/data` helper
`formattedValueToString`; per the spec the value is "the field's
human-readable display string". -/
def formattedValueToString (d : DisplayValue) : String := d.text

/-- A resolved data link as returned by a field's `getLinks` resolver
(and as stored in a `DataCell`'s `link` member). -/
structure DataLinkRes where
  title : Option String
  href : String
deriving DecidableEq

/-- Horizontal alignment values that may occur in `custom.align`. -/
inductive AlignVal where
  | auto
  | left
  | right
  | center
deriving DecidableEq

/-- `custom.cellOptions` (only its `type` member is read by the formatter). -/
structure CellOptions where
  type : String
deriving DecidableEq

/-- The `custom` block of a field's config, as read by `toObject`:
`custom?.hidden`, `custom.width`, `custom.align`, `custom?.cellOptions?.type`. -/
structure FieldConfigCustom where
  hidden : Option Bool
  width : Option ℚ
  align : Option AlignVal
  cellOptions : Option CellOptions
deriving DecidableEq

/-- A field's config: `unit` and the optional `custom` block. -/
structure FieldConfig where
  unit : Option String
  custom : Option FieldConfigCustom
deriving DecidableEq

/-- A field of a data frame.  `name` is the field's display name:
modelled from the spec ("a display name"), standing for the external
`getFieldDisplayName(fields[i], series)`. -/
structure Field where
  name : String
  type : FieldType
  config : FieldConfig
  display : Option (JsVal → DisplayValue)
  getLinks : Option (Nat → List DataLinkRes)
  values : List JsVal

/-- A data frame: an ordered sequence of fields. -/
structure DataFrame where
  fields : List Field

/-- A resolved cell value.  The JS coercions applied by `toObject`
(`new Date(v)`, `Number(v)`, `Boolean(v)`) are external builtins and are
kept symbolic: `dateOf v` is `new Date(v)` and so on; `rawVal v` is the
raw value stored unchanged and `undef` is JS `undefined`. -/
inductive RVal where
  | undef
  | dateOf (v : JsVal)
  | numberOf (v : JsVal)
  | boolOf (v : JsVal)
  | strVal (s : String)
  | rawVal (v : JsVal)
deriving DecidableEq

/-- `DataCell` of the source. -/
structure DataCell where
  value : RVal
  link : Option DataLinkRes
  color : Option String
  background : Option String
deriving DecidableEq

/-- `DataColumn` of the source. -/
structure DataColumn where
  name : String
  data : List DataCell
  hidden : Bool
  align : Option AlignVal
  type : FieldType
  fmt : Option String
  width : ℚ
deriving DecidableEq

/-- `DataSheet` of the source: a JS object with string keys, modelled as an
insertion-ordered association list (own-property lookup for ordinary keys). -/
abbrev DataSheet := List (String × DataColumn)

/-- `results[k]` read access. -/
def lookupKey (s : DataSheet) (k : String) : Option DataColumn :=
  (List.find? (fun e => e.1 == k) s).map (fun e => e.2)

/-- `results[k] = v` write access: replaces in place if the key exists,
otherwise appends (JS objects keep the original insertion position). -/
def setKey (s : DataSheet) (k : String) (v : DataColumn) : DataSheet :=
  if (List.find? (fun e => e.1 == k) s).isSome then
    List.map (fun e => if e.1 == k then (k, v) else e) s
  else
    s ++ [(k, v)]

/-- Modelled from the spec: `systemDateFormats.fullDate` of `@grafana/data`,
"the configured system full-date format"; the concrete string is immaterial
to the claims. -/
def sysFullDate : String := "YYYY-MM-DD HH:mm:ss"

/-- If `pat` is a prefix of `l`, the remainder after it. -/
def stripPat : List Char → List Char → Option (List Char)
  | [], l => some l
  | _ :: _, [] => none
  | p :: ps, c :: cs => if p = c then stripPat ps cs else none

/-- First occurrence of `pat` in `l`: the part before it and the part
after it. -/
def findSplit (pat : List Char) : List Char → Option (List Char × List Char)
  | [] => match stripPat pat [] with
    | some rest => some ([], rest)
    | none => none
  | c :: cs => match stripPat pat (c :: cs) with
    | some rest => some ([], rest)
    | none =>
      match findSplit pat cs with
      | some (pre, post) => some (c :: pre, post)
      | none => none

/-- JS `s.includes(pat)` for a non-empty pattern. -/
def includesSub (s pat : String) : Bool :=
  (findSplit pat.toList s.toList).isSome

/-- JS `s.replace(pat, '')` for a plain-string pattern: removes the first
occurrence of `pat`, if any. -/
def replaceFirst (s pat : String) : String :=
  match findSplit pat.toList s.toList with
  | some (pre, post) => String.mk (pre ++ post)
  | none => s

/-- The format-string computation of `toObject` (init.ts lines 333-343):
only time fields get a `fmt`; a unit containing `"time:"` has that marker
stripped (first occurrence), otherwise the system full-date format is used. -/
def computeFmt (t : FieldType) (unit : Option String) : Option String :=
  if t = FieldType.time then
    match unit with
    | some u =>
      if includesSub u "time:" then some (replaceFirst u "time:")
      else some sysFullDate
    | none => some sysFullDate
  else none

/-- Hex digit value of a character (`0-9`, `a-f`, `A-F`). -/
def hexVal? (c : Char) : Option ℕ :=
  if 48 ≤ c.toNat ∧ c.toNat ≤ 57 then some (c.toNat - 48)
  else if 97 ≤ c.toNat ∧ c.toNat ≤ 102 then some (c.toNat - 87)
  else if 65 ≤ c.toNat ∧ c.toNat ≤ 70 then some (c.toNat - 55)
  else none

/-- JS line terminators (not matched by `.` in a regex). -/
def isLineTerm (c : Char) : Bool :=
  c.toNat = 10 || c.toNat = 13 || c.toNat = 8232 || c.toNat = 8233

/-- Fueled floor base-2 logarithm (structural recursion so that it
evaluates by kernel reduction). -/
def natLog2F : ℕ → ℕ → ℕ
  | 0, _ => 0
  | fuel + 1, n => if n ≤ 1 then 0 else natLog2F fuel (n / 2) + 1

/-- Floor base-2 logarithm; the fuel 1100 covers every magnitude a
binary64 value can take. -/
def natLog2 (n : ℕ) : ℕ := natLog2F 1100 n

/-- `⌊log2 |x|⌋` for a non-zero rational `x`. -/
def ratLog2 (x : ℚ) : ℤ :=
  let p := x.num.natAbs
  let q := x.den
  let e0 : ℤ := (natLog2 p : ℤ) - (natLog2 q : ℤ)
  if 0 ≤ e0 then
    if q * 2 ^ e0.toNat ≤ p then e0 else e0 - 1
  else
    if q ≤ p * 2 ^ (-e0).toNat then e0 else e0 - 1

/-- Round the fraction `a / b` (with `b ≠ 0`) to the nearest integer,
ties to even. -/
def rndNearEven (a b : ℕ) : ℕ :=
  let d := a / b
  let r := a % b
  if 2 * r < b then d
  else if b < 2 * r then d + 1
  else if d % 2 = 0 then d else d + 1

/-- Round a rational to the exact value of the nearest IEEE binary64
number (round to nearest, ties to even; 53-bit significand).  JS numbers
are binary64, so this is the rounding every arithmetic operation of the
source applies.  Faithful on the normal range, the only range the
luminance computation visits (no overflow or subnormal handling). -/
def round64 (x : ℚ) : ℚ :=
  if x = 0 then 0
  else
    let p := x.num.natAbs
    let q := x.den
    let e := ratLog2 x
    let a := p * 2 ^ (52 - e).toNat
    let b := q * 2 ^ (e - 52).toNat
    let m := rndNearEven a b
    let mag : ℚ := if 52 ≤ e then (m : ℚ) * 2 ^ (e - 52).toNat else (m : ℚ) / 2 ^ (52 - e).toNat
    if x < 0 then -mag else mag

/-- The binary64 value of the literal `0.299`. -/
def c299 : ℚ := round64 (299 / 1000)

/-- The binary64 value of the literal `0.587`. -/
def c587 : ℚ := round64 (587 / 1000)

/-- The binary64 value of the literal `0.114`. -/
def c114 : ℚ := round64 (114 / 1000)

/-- Binary64 multiplication (exact product, then one rounding). -/
def flMul (x y : ℚ) : ℚ := round64 (x * y)

/-- Binary64 addition. -/
def flAdd (x y : ℚ) : ℚ := round64 (x + y)

/-- Binary64 division. -/
def flDiv (x y : ℚ) : ℚ := round64 (x / y)

/-- The luminance expression `(0.299 * r + 0.587 * g + 0.114 * b) / 255`
of `getTextColor` (init.ts line 435), evaluated exactly as JS does: the
three decimal literals are binary64 values, and each product, the two
(left-associated) sums and the division each round once to binary64.
The channel values 0..255 are exactly representable. -/
def lumF (r g b : ℚ) : ℚ :=
  flDiv (flAdd (flAdd (flMul c299 r) (flMul c587 g)) (flMul c114 b)) 255

/-- Modelled JS `parseInt(s, 16)` for the two-character channel substrings
produced by the color regex: value of the longest hex-digit prefix, `none`
(NaN) when there is none.  (Sign/whitespace/`0x` prefixes cannot follow a
regex `(..)`-captured channel of the colors of interest.) -/
def parseIntHex (s : String) : Option ℕ :=
  let ds := s.toList.takeWhile (fun c => (hexVal? c).isSome)
  if ds.isEmpty then none
  else some (ds.foldl (fun acc c => 16 * acc + (hexVal? c).getD 0) 0)

/-- The regex match `^#(..)(..)(..)$` of `getTextColor`: exactly seven
characters, the first is `#`, the six captured characters are split into
three two-character channel strings (`.` does not match line terminators). -/
def hexTripleMatch (s : String) : Option (String × String × String) :=
  match s.toList with
  | ['#', a, b, c, d, e, f] =>
    if isLineTerm a || isLineTerm b || isLineTerm c ||
       isLineTerm d || isLineTerm e || isLineTerm f then none
    else some (String.mk [a, b], String.mk [c, d], String.mk [e, f])
  | _ => none

/-- The 3-digit expansion of `getTextColor` (init.ts line 427): for a
length-4 string, `#` followed by characters 1,2,3 each duplicated (the
original first character is not inspected). -/
def expand3 (s : String) : String :=
  match s.toList with
  | [_, c1, c2, c3] => String.mk ['#', c1, c1, c2, c2, c3, c3]
  | _ => s

/-- `getTextColor` (init.ts lines 420-441).  A falsy argument (absent or
empty string) yields no color.  A length-4 string is expanded to 6-digit
form.  The non-null assertion on the regex match raises a `TypeError` when
the match fails, modelled as `Except.error ()`.  Channel parse results can
be NaN (`none`), in which case the luminance comparison is false and white
is returned.  The luminance arithmetic is IEEE double precision, modelled
exactly by `lumF` (JS numbers are binary64). -/
def getTextColor (backgroundColor : Option String) : Except Unit (Option String) :=
  match backgroundColor with
  | none => Except.ok none
  | some bc0 =>
    -- `if (!backgroundColor) return undefined`: absent is `none`; of the
    -- strings only the empty string is falsy
    if bc0 = "" then Except.ok none
    else
    let bc := if bc0.length = 4 then expand3 bc0 else bc0
    match hexTripleMatch bc with
    | none => Except.error ()
    | some (r, g, b) =>
      match parseIntHex r, parseIntHex g, parseIntHex b with
      | some rInt, some gInt, some bInt =>
        let luminance : ℚ := lumF rInt gInt bInt
        Except.ok (some (if luminance > 0.5 then "000000" else "FFFFFF"))
      | _, _, _ => Except.ok (some "FFFFFF")

/-- The contrast-color computation as the spec words it (the spec-side
definition for the refinement claim about `getTextColor`): expand 3-digit
shorthand by duplicating each channel digit, parse the R, G, B channels as
integers, compute `L = (0.299R + 0.587G + 0.114B) / 255` and return pure
black (`000000`) when `L > 0.5`, else pure white (`FFFFFF`). -/
def contrastSpec (s : String) : String :=
  let s6 :=
    match s.toList with
    | ['#', c1, c2, c3] => String.mk ['#', c1, c1, c2, c2, c3, c3]
    | _ => s
  match s6.toList with
  | ['#', a, b, c, d, e, f] =>
    match hexVal? a, hexVal? b, hexVal? c, hexVal? d, hexVal? e, hexVal? f with
    | some a1, some a2, some b1, some b2, some c1, some c2 =>
      let R : ℚ := ((16 * a1 + a2 : ℕ) : ℚ)
      let G : ℚ := ((16 * b1 + b2 : ℕ) : ℚ)
      let B : ℚ := ((16 * c1 + c2 : ℕ) : ℚ)
      let L : ℚ := (0.299 * R + 0.587 * G + 0.114 * B) / 255
      if L > 0.5 then "000000" else "FFFFFF"
    | _, _, _, _, _, _ => "FFFFFF"
  | _ => "FFFFFF"

/-- The spec's contrast algorithm with its luminance formula evaluated in
IEEE double-precision arithmetic, the way the source's JS actually
evaluates it (the spec-side definition for the amended refinement claim
about `getTextColor`): expand 3-digit shorthand by duplicating each channel
digit, parse the channels as integers, evaluate
`L = (0.299R + 0.587G + 0.114B) / 255` in binary64 and return pure black
when `L > 0.5`, else pure white. -/
def contrastSpecF (s : String) : String :=
  let s6 :=
    match s.toList with
    | ['#', c1, c2, c3] => String.mk ['#', c1, c1, c2, c2, c3, c3]
    | _ => s
  match s6.toList with
  | ['#', a, b, c, d, e, f] =>
    match hexVal? a, hexVal? b, hexVal? c, hexVal? d, hexVal? e, hexVal? f with
    | some a1, some a2, some b1, some b2, some c1, some c2 =>
      let L : ℚ := lumF ((16 * a1 + a2 : ℕ) : ℚ) ((16 * b1 + b2 : ℕ) : ℚ) ((16 * c1 + c2 : ℕ) : ℚ)
      if L > 0.5 then "000000" else "FFFFFF"
    | _, _, _, _, _, _ => "FFFFFF"
  | _ => "FFFFFF"

/-- Column-metadata construction of `toObject` (init.ts lines 331-353).
`fieldConfig.custom?.hidden ?? false` tolerates an absent `custom` block,
but `fieldConfig.custom.width` (and `.align`) dereference it without a
guard: a field with no `custom` block raises a `TypeError`. -/
def mkColumn (f : Field) : Except Unit DataColumn :=
  match f.config.custom with
  | none => Except.error ()
  | some c =>
    Except.ok
      { name := f.name
        data := []
        type := f.type
        hidden := c.hidden.getD false
        width := c.width.getD 150
        align := if c.align = some AlignVal.auto then none else c.align
        fmt := computeFmt f.type f.config.unit }

/-- Per-cell resolution of `toObject` (init.ts lines 360-411): typed value
coercion, cell-option coloring (where `color-background` may raise through
`getTextColor`), then the data-link override (first link only, fixed link
color `#3B5586`).  A row index beyond the field's values reads JS
`undefined`.  The source's variable name `diplay` is kept. -/
def resolveCell (f : Field) (i : Nat) : Except Unit DataCell :=
  let v := f.values.getD i JsVal.undef
  let diplay := f.display.map (fun disp => disp v)
  let value : RVal :=
    match f.type with
    | FieldType.time => RVal.dateOf v
    | FieldType.number => RVal.numberOf v
    | FieldType.boolean => RVal.boolOf v
    | FieldType.string =>
      match diplay with
      | some d => RVal.strVal (formattedValueToString d)
      | none => RVal.rawVal v
    | FieldType.other => RVal.undef
  let colorRes : Except Unit (Option String × Option String) :=
    match (f.config.custom.bind (fun c => c.cellOptions)).map (fun o => o.type) with
    | some "color-text" => Except.ok (diplay.bind (fun d => d.color), none)
    | some "color-background" =>
      match getTextColor (diplay.bind (fun d => d.color)) with
      | Except.ok tc => Except.ok (tc, diplay.bind (fun d => d.color))
      | Except.error e => Except.error e
    | _ => Except.ok (none, none)
  match colorRes with
  | Except.error e => Except.error e
  | Except.ok (color, background) =>
    let links := (f.getLinks.map (fun g => g i)).getD []
    match links with
    | [] => Except.ok { value := value, link := none, color := color, background := background }
    | l :: _ =>
      Except.ok
        { value := value
          link := some { title := l.title, href := l.href }
          color := some "#3B5586"
          background := background }

/-- `results[j].data.push(cellValue)` (init.ts line 411): raises a
`TypeError` when the key is missing. -/
def pushCell (sheet : DataSheet) (k : String) (cell : DataCell) : Except Unit DataSheet :=
  match lookupKey sheet k with
  | none => Except.error ()
  | some col => Except.ok (setKey sheet k { col with data := col.data ++ [cell] })

/-- Metadata loop of `toObject` (init.ts lines 328-355): for each field at
position `i`, if `results[fieldName]` is missing (the guard checks the
display NAME as a key), store a fresh column under the INDEX key `i`. -/
def addMeta (sheet : DataSheet) (fields : List Field) (i : Nat) : Except Unit DataSheet :=
  match fields with
  | [] => Except.ok sheet
  | f :: rest =>
    if (lookupKey sheet f.name).isSome then addMeta sheet rest (i + 1)
    else
      match mkColumn f with
      | Except.error e => Except.error e
      | Except.ok col => addMeta (setKey sheet (Nat.repr i) col) rest (i + 1)

/-- Inner loop over the fields of one row (init.ts lines 361-412). -/
def addRowCells (sheet : DataSheet) (fields : List Field) (rowIdx j : Nat) :
    Except Unit DataSheet :=
  match fields with
  | [] => Except.ok sheet
  | f :: rest =>
    match resolveCell f rowIdx with
    | Except.error e => Except.error e
    | Except.ok cell =>
      match pushCell sheet (Nat.repr j) cell with
      | Except.error e => Except.error e
      | Except.ok sheet2 => addRowCells sheet2 rest rowIdx (j + 1)

/-- Row loop of `toObject` (init.ts lines 360-413): `rowsLeft` counts down
from the first field's value count. -/
def addRows (sheet : DataSheet) (fields : List Field) (rowIdx rowsLeft : Nat) :
    Except Unit DataSheet :=
  match rowsLeft with
  | 0 => Except.ok sheet
  | n + 1 =>
    match addRowCells sheet fields rowIdx 0 with
    | Except.error e => Except.error e
    | Except.ok sheet2 => addRows sheet2 fields (rowIdx + 1) n

/-- Processing of one series by `toObject`: frames with no fields are
skipped; otherwise metadata is recorded and then `fields[0].values.length`
rows of cells are pushed. -/
def processFrame (sheet : DataSheet) (fr : DataFrame) : Except Unit DataSheet :=
  match fr.fields with
  | [] => Except.ok sheet
  | f0 :: _ =>
    match addMeta sheet fr.fields 0 with
    | Except.error e => Except.error e
    | Except.ok sheet1 => addRows sheet1 fr.fields 0 f0.values.length

/-- Frame loop of `toObject`. -/
def toObjectAux (sheet : DataSheet) (data : List DataFrame) : Except Unit DataSheet :=
  match data with
  | [] => Except.ok sheet
  | fr :: rest =>
    match processFrame sheet fr with
    | Except.error e => Except.error e
    | Except.ok sheet2 => toObjectAux sheet2 rest

/-- `toObject` (init.ts lines 312-418).  The JS `if (!data) return {}`
guard is subsumed by the empty list.  A raised `TypeError` anywhere in the
loops aborts the whole conversion (`Except.error`). -/
def toObject (data : List DataFrame) : Except Unit DataSheet :=
  toObjectAux [] data

/-- A dashboard panel (only the members the downloads read). -/
structure Panel where
  id : ℤ
deriving DecidableEq

/-- The panel selection shared by `downloadCsv` (init.ts lines 102-114),
`downloadZip` (87-94) and `downloadXlsx` (131-135): a non-empty id list
filters `d.panels`, but the loop then indexes `d.panels[i]` for
`i < panels.length`, so the filtered list contributes only its length. -/
def exportedPanels (panels : List Panel) (ids : List ℤ) : List Panel :=
  let selected := if ids.isEmpty then panels else panels.filter (fun p => ids.contains p.id)
  panels.take selected.length

/-- `reportType` of the `ShareReport` dialog state. -/
inductive ReportType where
  | csv
  | xlsx
deriving DecidableEq

/-- State of the `ShareReport` component. -/
structure ShareReportState where
  reportType : ReportType
  zipped : Bool
  loading : Bool
deriving DecidableEq

/-- `ShareReport.onDownload`: `setState({loading: true})`, await the
download (its outcome is the `downloadResult` parameter), then
`setState({loading: false})`.  The async method has no `try`/`finally`,
so a rejected download promise skips the trailing `setState` and the
component keeps `loading = true`. -/
def onDownload (st : ShareReportState) (downloadResult : Except Unit Unit) :
    ShareReportState :=
  let st1 := { st with loading := true }
  match downloadResult with
  | Except.ok _ => { st1 with loading := false }
  | Except.error _ => st1

/-! Concrete inputs used by the evaluation theorems below. -/

/-- A one-field frame: field display name `"a"`, width 100, one row. -/
def fieldA : Field :=
  { name := "a", type := FieldType.string
    config := { unit := none
                custom := some { hidden := none, width := some 100, align := none, cellOptions := none } }
    display := none, getLinks := none, values := [JsVal.str "x"] }

/-- A one-field frame: field display name `"b"`, width 200, one row. -/
def fieldB : Field :=
  { name := "b", type := FieldType.string
    config := { unit := none
                custom := some { hidden := none, width := some 200, align := none, cellOptions := none } }
    display := none, getLinks := none, values := [JsVal.str "y"] }

def frameA : DataFrame := ⟨[fieldA]⟩

def frameB : DataFrame := ⟨[fieldB]⟩

/-- A field whose declared type is outside the four explicit cases. -/
def fieldOther : Field :=
  { name := "o", type := FieldType.other
    config := { unit := none
                custom := some { hidden := none, width := none, align := none, cellOptions := none } }
    display := none, getLinks := none, values := [JsVal.str "x"] }

/-- A `color-background` field whose display color is a malformed hex string. -/
def fieldBadColor : Field :=
  { name := "c", type := FieldType.string
    config := { unit := none
                custom := some { hidden := none, width := none, align := none
                                 cellOptions := some ⟨"color-background"⟩ } }
    display := some (fun _ => { text := "t", color := some "#12345" })
    getLinks := none, values := [JsVal.str "v", JsVal.str "w"] }

/-- A field with no `custom` configuration block at all. -/
def fieldNoCustom : Field :=
  { name := "n", type := FieldType.string
    config := { unit := none, custom := none }
    display := none, getLinks := none, values := [] }

/-- A field whose configured alignment is `auto` and whose width is unset. -/
def fieldAuto : Field :=
  { name := "w", type := FieldType.string
    config := { unit := none
                custom := some { hidden := none, width := none, align := some AlignVal.auto
                                 cellOptions := none } }
    display := none, getLinks := none, values := [] }

/-- A link resolver returning one link for every row. -/
def gLinks : Nat → List DataLinkRes := fun _ => [{ title := some "T", href := "http://x" }]

/-- A `color-background` field with a well-formed display color and a link. -/
def fieldLink : Field :=
  { name := "l", type := FieldType.string
    config := { unit := none
                custom := some { hidden := none, width := none, align := none
                                 cellOptions := some ⟨"color-background"⟩ } }
    display := some (fun _ => { text := "t", color := some "#000000" })
    getLinks := some gLinks, values := [JsVal.str "v"] }

/-! Helper lemmas about the contrast computation. -/

/-- A hex digit is not a line terminator. -/
theorem hexVal_not_lineTerm {c : Char} {v : ℕ} (h : hexVal? c = some v) :
    isLineTerm c = false := by
  unfold hexVal? at h
  unfold isLineTerm
  split_ifs at h with h1 h2 h3 <;> simp_all <;> omega

/-- Evaluation of `getTextColor` on a 6-digit hex color with digit values
`va`..`vf`. -/
theorem getTextColor_hex6 (a b c d e f : Char) (va vb vc vd ve vf : ℕ)
    (hva : hexVal? a = some va) (hvb : hexVal? b = some vb)
    (hvc : hexVal? c = some vc) (hvd : hexVal? d = some vd)
    (hve : hexVal? e = some ve) (hvf : hexVal? f = some vf) :
    getTextColor (some (String.mk ['#', a, b, c, d, e, f])) =
      Except.ok (some (if 0.5 <
          lumF ((16 * va + vb : ℕ) : ℚ) ((16 * vc + vd : ℕ) : ℚ) ((16 * ve + vf : ℕ) : ℚ)
        then "000000" else "FFFFFF")) := by
  have la := hexVal_not_lineTerm hva
  have lb := hexVal_not_lineTerm hvb
  have lc := hexVal_not_lineTerm hvc
  have ld := hexVal_not_lineTerm hvd
  have le := hexVal_not_lineTerm hve
  have lf := hexVal_not_lineTerm hvf
  simp [getTextColor, hexTripleMatch, parseIntHex, String.ext_iff,
    la, lb, lc, ld, le, lf, hva, hvb, hvc, hvd, hve, hvf]

/-- Evaluation of `getTextColor` on a 3-digit hex color with digit values
`va vb vc` (each channel digit is duplicated by the expansion). -/
theorem getTextColor_hex3 (a b c : Char) (va vb vc : ℕ)
    (hva : hexVal? a = some va) (hvb : hexVal? b = some vb)
    (hvc : hexVal? c = some vc) :
    getTextColor (some (String.mk ['#', a, b, c])) =
      Except.ok (some (if 0.5 <
          lumF ((16 * va + va : ℕ) : ℚ) ((16 * vb + vb : ℕ) : ℚ) ((16 * vc + vc : ℕ) : ℚ)
        then "000000" else "FFFFFF")) := by
  have la := hexVal_not_lineTerm hva
  have lb := hexVal_not_lineTerm hvb
  have lc := hexVal_not_lineTerm hvc
  simp [getTextColor, hexTripleMatch, parseIntHex, expand3, String.ext_iff,
    la, lb, lc, hva, hvb, hvc]

/-- Evaluation of `contrastSpec` on a 6-digit hex color. -/
theorem contrastSpec_hex6 (a b c d e f : Char) (va vb vc vd ve vf : ℕ)
    (hva : hexVal? a = some va) (hvb : hexVal? b = some vb)
    (hvc : hexVal? c = some vc) (hvd : hexVal? d = some vd)
    (hve : hexVal? e = some ve) (hvf : hexVal? f = some vf) :
    contrastSpec (String.mk ['#', a, b, c, d, e, f]) =
      (if 0.5 <
          (0.299 * ((16 * va + vb : ℕ) : ℚ) + 0.587 * ((16 * vc + vd : ℕ) : ℚ) +
            0.114 * ((16 * ve + vf : ℕ) : ℚ)) / 255
        then "000000" else "FFFFFF") := by
  simp [contrastSpec, hva, hvb, hvc, hvd, hve, hvf]

/-- Evaluation of `contrastSpec` on a 3-digit hex color. -/
theorem contrastSpec_hex3 (a b c : Char) (va vb vc : ℕ)
    (hva : hexVal? a = some va) (hvb : hexVal? b = some vb)
    (hvc : hexVal? c = some vc) :
    contrastSpec (String.mk ['#', a, b, c]) =
      (if 0.5 <
          (0.299 * ((16 * va + va : ℕ) : ℚ) + 0.587 * ((16 * vb + vb : ℕ) : ℚ) +
            0.114 * ((16 * vc + vc : ℕ) : ℚ)) / 255
        then "000000" else "FFFFFF") := by
  simp [contrastSpec, hva, hvb, hvc]

/-- Evaluation of `contrastSpecF` on a 6-digit hex color. -/
theorem contrastSpecF_hex6 (a b c d e f : Char) (va vb vc vd ve vf : ℕ)
    (hva : hexVal? a = some va) (hvb : hexVal? b = some vb)
    (hvc : hexVal? c = some vc) (hvd : hexVal? d = some vd)
    (hve : hexVal? e = some ve) (hvf : hexVal? f = some vf) :
    contrastSpecF (String.mk ['#', a, b, c, d, e, f]) =
      (if 0.5 <
          lumF ((16 * va + vb : ℕ) : ℚ) ((16 * vc + vd : ℕ) : ℚ) ((16 * ve + vf : ℕ) : ℚ)
        then "000000" else "FFFFFF") := by
  simp [contrastSpecF, hva, hvb, hvc, hvd, hve, hvf]

/-- Evaluation of `contrastSpecF` on a 3-digit hex color. -/
theorem contrastSpecF_hex3 (a b c : Char) (va vb vc : ℕ)
    (hva : hexVal? a = some va) (hvb : hexVal? b = some vb)
    (hvc : hexVal? c = some vc) :
    contrastSpecF (String.mk ['#', a, b, c]) =
      (if 0.5 <
          lumF ((16 * va + va : ℕ) : ℚ) ((16 * vb + vb : ℕ) : ℚ) ((16 * vc + vc : ℕ) : ℚ)
        then "000000" else "FFFFFF") := by
  simp [contrastSpecF, hva, hvb, hvc]

/-! Evaluation facts about the binary64 rounding steps of the luminance
computation, each verified against the rounding definition. -/

/-- Base-2 logarithms of the numerators and denominators appearing in
the rounding steps below. -/
theorem natLog2_facts : natLog2 1 = 0 ∧ natLog2 57 = 5 ∧ natLog2 299 = 8 ∧ natLog2 500 = 8 ∧ natLog2 587 = 9 ∧ natLog2 1000 = 9 ∧ natLog2 70368744177664 = 46 ∧ natLog2 140737488355328 = 47 ∧ natLog2 281474976710656 = 48 ∧ natLog2 2251799813685248 = 51 ∧ natLog2 4503599627370496 = 52 ∧ natLog2 8972014882652161 = 52 ∧ natLog2 9007199254740992 = 53 ∧ natLog2 13965099494522487 = 53 ∧ natLog2 15898410372059627 = 53 ∧ natLog2 17944029765304320 = 53 ∧ natLog2 18014398509481984 = 54 ∧ natLog2 35888059530608641 = 54 ∧ natLog2 35888059530608643 = 54 ∧ natLog2 72057594037927936 = 56 ∧ natLog2 76664776456727949 = 56 ∧ natLog2 254651537330037335 = 57 ∧ natLog2 587107261822527317 = 59 ∧ natLog2 674121310222952655 = 59 ∧ natLog2 1373507814355453815 = 60 ∧ natLog2 2094714258682565175 = 60 :=
  ⟨rfl, rfl, rfl, rfl, rfl, rfl, rfl, rfl, rfl, rfl, rfl, rfl, rfl, rfl, rfl, rfl, rfl, rfl, rfl, rfl, rfl, rfl, rfl, rfl, rfl, rfl⟩

/-- The binary64 value of the decimal literal behind `c299`. -/
theorem c299_eq : c299 = (5386305154335113 : ℚ) / 2 ^ 54 := by
  have lg := natLog2_facts
  have tp : ((54 : ℤ)).toNat = 54 := rfl
  have tn : ((-54 : ℤ)).toNat = 0 := rfl
  have te : ((1 : ℤ)).toNat = 1 := rfl
  simp only [c299, round64, ratLog2, rndNearEven]
  norm_num [lg, tp, tn, te]

/-- The binary64 value of the decimal literal behind `c587`. -/
theorem c587_eq : c587 = (5287225962532962 : ℚ) / 2 ^ 53 := by
  have lg := natLog2_facts
  have tp : ((53 : ℤ)).toNat = 53 := rfl
  have tn : ((-53 : ℤ)).toNat = 0 := rfl
  have te : ((0 : ℤ)).toNat = 0 := rfl
  simp only [c587, round64, ratLog2, rndNearEven]
  norm_num [lg, tp, tn, te]

/-- The binary64 value of the decimal literal behind `c114`. -/
theorem c114_eq : c114 = (8214565720323785 : ℚ) / 2 ^ 56 := by
  have lg := natLog2_facts
  have tp : ((56 : ℤ)).toNat = 56 := rfl
  have tn : ((-56 : ℤ)).toNat = 0 := rfl
  have te : ((3 : ℤ)).toNat = 3 := rfl
  simp only [c114, round64, ratLog2, rndNearEven]
  norm_num [lg, tp, tn, te]

/-- One binary64 rounding step of the luminance computation. -/
theorem r64_w_1 : round64 ((5386305154335113 : ℚ) / 2 ^ 54 * 255) = (5365264899825991 : ℚ) / 2 ^ 46 := by
  have lg := natLog2_facts
  have tp : ((46 : ℤ)).toNat = 46 := rfl
  have tn : ((-46 : ℤ)).toNat = 0 := rfl
  have te : ((6 : ℤ)).toNat = 6 := rfl
  simp only [round64, ratLog2, rndNearEven]
  norm_num [lg, tp, tn, te]

/-- One binary64 rounding step of the luminance computation. -/
theorem r64_w_2 : round64 ((5287225962532962 : ℚ) / 2 ^ 53 * 255) = (5266572736116818 : ℚ) / 2 ^ 45 := by
  have lg := natLog2_facts
  have tp : ((45 : ℤ)).toNat = 45 := rfl
  have tn : ((-45 : ℤ)).toNat = 0 := rfl
  have te : ((7 : ℤ)).toNat = 7 := rfl
  simp only [round64, ratLog2, rndNearEven]
  norm_num [lg, tp, tn, te]

/-- One binary64 rounding step of the luminance computation. -/
theorem r64_w_3 : round64 ((5365264899825991 : ℚ) / 2 ^ 46 + (5266572736116818 : ℚ) / 2 ^ 45) = (7949205186029814 : ℚ) / 2 ^ 45 := by
  have lg := natLog2_facts
  have tp : ((45 : ℤ)).toNat = 45 := rfl
  have tn : ((-45 : ℤ)).toNat = 0 := rfl
  have te : ((7 : ℤ)).toNat = 7 := rfl
  simp only [round64, ratLog2, rndNearEven]
  norm_num [lg, tp, tn, te]

/-- One binary64 rounding step of the luminance computation. -/
theorem r64_w_4 : round64 ((8214565720323785 : ℚ) / 2 ^ 56 * 255) = (8182477572978770 : ℚ) / 2 ^ 48 := by
  have lg := natLog2_facts
  have tp : ((48 : ℤ)).toNat = 48 := rfl
  have tn : ((-48 : ℤ)).toNat = 0 := rfl
  have te : ((4 : ℤ)).toNat = 4 := rfl
  simp only [round64, ratLog2, rndNearEven]
  norm_num [lg, tp, tn, te]

/-- One binary64 rounding step of the luminance computation. -/
theorem r64_w_5 : round64 ((7949205186029814 : ℚ) / 2 ^ 45 + (8182477572978770 : ℚ) / 2 ^ 48) = (8972014882652160 : ℚ) / 2 ^ 45 := by
  have lg := natLog2_facts
  have tp : ((45 : ℤ)).toNat = 45 := rfl
  have tn : ((-45 : ℤ)).toNat = 0 := rfl
  have te : ((7 : ℤ)).toNat = 7 := rfl
  simp only [round64, ratLog2, rndNearEven]
  norm_num [lg, tp, tn, te]

/-- One binary64 rounding step of the luminance computation. -/
theorem r64_w_6 : round64 ((8972014882652160 : ℚ) / 2 ^ 45 / 255) = (4503599627370496 : ℚ) / 2 ^ 52 := by
  have lg := natLog2_facts
  have tp : ((52 : ℤ)).toNat = 52 := rfl
  have tn : ((-52 : ℤ)).toNat = 0 := rfl
  have te : ((0 : ℤ)).toNat = 0 := rfl
  simp only [round64, ratLog2, rndNearEven]
  norm_num [lg, tp, tn, te]

/-- One binary64 rounding step of the luminance computation. -/
theorem r64_t_1 : round64 ((5386305154335113 : ℚ) / 2 ^ 54 * 218) = (4586775482988495 : ℚ) / 2 ^ 46 := by
  have lg := natLog2_facts
  have tp : ((46 : ℤ)).toNat = 46 := rfl
  have tn : ((-46 : ℤ)).toNat = 0 := rfl
  have te : ((6 : ℤ)).toNat = 6 := rfl
  simp only [round64, ratLog2, rndNearEven]
  norm_num [lg, tp, tn, te]

/-- One binary64 rounding step of the luminance computation. -/
theorem r64_t_2 : round64 ((5287225962532962 : ℚ) / 2 ^ 53 * 58) = (4791548528545497 : ℚ) / 2 ^ 47 := by
  have lg := natLog2_facts
  have tp : ((47 : ℤ)).toNat = 47 := rfl
  have tn : ((-47 : ℤ)).toNat = 0 := rfl
  have te : ((5 : ℤ)).toNat = 5 := rfl
  simp only [round64, ratLog2, rndNearEven]
  norm_num [lg, tp, tn, te]

/-- One binary64 rounding step of the luminance computation. -/
theorem r64_t_3 : round64 ((4586775482988495 : ℚ) / 2 ^ 46 + (4791548528545497 : ℚ) / 2 ^ 47) = (6982549747261244 : ℚ) / 2 ^ 46 := by
  have lg := natLog2_facts
  have tp : ((46 : ℤ)).toNat = 46 := rfl
  have tn : ((-46 : ℤ)).toNat = 0 := rfl
  have te : ((6 : ℤ)).toNat = 6 := rfl
  simp only [round64, ratLog2, rndNearEven]
  norm_num [lg, tp, tn, te]

/-- One binary64 rounding step of the luminance computation. -/
theorem r64_t_4 : round64 ((8214565720323785 : ℚ) / 2 ^ 56 * 248) = (7957860541563667 : ℚ) / 2 ^ 48 := by
  have lg := natLog2_facts
  have tp : ((48 : ℤ)).toNat = 48 := rfl
  have tn : ((-48 : ℤ)).toNat = 0 := rfl
  have te : ((4 : ℤ)).toNat = 4 := rfl
  simp only [round64, ratLog2, rndNearEven]
  norm_num [lg, tp, tn, te]

/-- One binary64 rounding step of the luminance computation. -/
theorem r64_t_5 : round64 ((6982549747261244 : ℚ) / 2 ^ 46 + (7957860541563667 : ℚ) / 2 ^ 48) = (8972014882652161 : ℚ) / 2 ^ 46 := by
  have lg := natLog2_facts
  have tp : ((46 : ℤ)).toNat = 46 := rfl
  have tn : ((-46 : ℤ)).toNat = 0 := rfl
  have te : ((6 : ℤ)).toNat = 6 := rfl
  simp only [round64, ratLog2, rndNearEven]
  norm_num [lg, tp, tn, te]

/-- One binary64 rounding step of the luminance computation. -/
theorem r64_t_6 : round64 ((8972014882652161 : ℚ) / 2 ^ 46 / 255) = (4503599627370497 : ℚ) / 2 ^ 53 := by
  have lg := natLog2_facts
  have tp : ((53 : ℤ)).toNat = 53 := rfl
  have tn : ((-53 : ℤ)).toNat = 0 := rfl
  have te : ((1 : ℤ)).toNat = 1 := rfl
  simp only [round64, ratLog2, rndNearEven]
  norm_num [lg, tp, tn, te]

/-- The binary64 luminance of pure white is exactly 1. -/
theorem lumF_255 : lumF 255 255 255 = (4503599627370496 : ℚ) / 2 ^ 52 := by
  simp only [lumF, flMul, flAdd, flDiv, c299_eq, c587_eq, c114_eq, r64_w_1, r64_w_2, r64_w_3, r64_w_4, r64_w_5, r64_w_6]

/-- The binary64 luminance of the exact-tie color `#da3af8` is one ulp
above one half: the double computation strictly exceeds 0.5 although the
exact value is 0.5. -/
theorem lumF_tie : lumF 218 58 248 = (4503599627370497 : ℚ) / 2 ^ 53 := by
  simp only [lumF, flMul, flAdd, flDiv, c299_eq, c587_eq, c114_eq, r64_t_1, r64_t_2, r64_t_3, r64_t_4, r64_t_5, r64_t_6]

/-- The binary64 luminance of pure black is 0. -/
theorem lumF_zero : lumF 0 0 0 = 0 := by
  simp [lumF, flMul, flAdd, flDiv, round64]


/-- Concrete evaluation: black input yields white text. -/
theorem getTextColor_black000 : getTextColor (some "#000000") = Except.ok (some "FFFFFF") := by
  rw [show ("#000000" : String) = String.mk ['#', '0', '0', '0', '0', '0', '0'] from rfl,
    getTextColor_hex6 '0' '0' '0' '0' '0' '0' 0 0 0 0 0 0 rfl rfl rfl rfl rfl rfl]
  norm_num [lumF_zero]

/-! The claims. -/

/-- C1: the claim says each column's cell count is the sum, over the tables
with a field at that position, of that table's row count.  On two one-field,
one-row tables the code yields a single column with ONE cell, not two: each
table's metadata pass re-assigns `results["0"]` with a fresh empty `data`
array (its first-seen guard checks `results[fieldName]`, a key that is never
written), discarding the rows accumulated for earlier tables. -/
theorem C1_rowcount_failing :
    frameA.fields.map (fun f => f.values.length) = [1] ∧
    frameB.fields.map (fun f => f.values.length) = [1] ∧
    (toObject [frameA, frameB]).map (fun s => s.length) = Except.ok 1 ∧
    (toObject [frameA, frameB]).map (fun s => (lookupKey s "0").map (fun c => c.data.length)) =
      Except.ok (some 1) :=
  ⟨rfl, rfl, rfl, rfl⟩

/-- C2: the claim says the column metadata stored at a position comes from
the first table contributing a field there and is never overwritten.  On two
one-field tables (names `"a"`/`"b"`, widths 100/200) the stored metadata at
key `"0"` is the SECOND table's (`"b"`, 200): the first-seen guard checks
`results[fieldName]`, but columns are stored under index keys, so the guard
never fires and every later table overwrites. -/
theorem C2_metadata_failing :
    fieldA.name = "a" ∧ fieldB.name = "b" ∧
    (toObject [frameA, frameB]).map (fun s => (lookupKey s "0").map (fun c => (c.name, c.width))) =
      Except.ok (some ("b", 200)) :=
  ⟨rfl, rfl, rfl⟩

/-- C3: the claim says a non-empty id list exports exactly the selected
panels.  With panels `[id 1, id 2]` and selection `[2]`, the code filters to
obtain the count (1) but then iterates `d.panels[i]`, exporting panel id 1
instead of the selected id 2.  The empty selection does export all panels. -/
theorem C3_selection_failing :
    exportedPanels [⟨1⟩, ⟨2⟩] [2] = [⟨1⟩] ∧
    List.filter (fun p => ([2] : List ℤ).contains p.id) [(⟨1⟩ : Panel), ⟨2⟩] = [⟨2⟩] ∧
    (⟨1⟩ : Panel) ≠ ⟨2⟩ ∧
    exportedPanels [⟨1⟩, ⟨2⟩] [] = [⟨1⟩, ⟨2⟩] :=
  ⟨rfl, rfl, by decide, rfl⟩

/-- C10: the claim says `loading` is reset to `false` on both the success
and the failure path of `ShareReport.onDownload`.  On a rejected download
promise the trailing `setState` is skipped (no `try`/`finally`), so the
state keeps `loading = true`; only the success path resets it. -/
theorem C10_loading_failing :
    (onDownload ⟨ReportType.csv, false, false⟩ (Except.error ())).loading = true ∧
    (onDownload ⟨ReportType.csv, false, false⟩ (Except.ok ())).loading = false :=
  ⟨rfl, rfl⟩

/-- C4 counterexample: for a field of a type outside the four explicit
cases the resolved cell value is JS `undefined`, not the raw value as the
claim states (none of the four `if` branches assigns `cellValue.value`). -/
theorem C4_other_type_cex :
    resolveCell fieldOther 0 =
      Except.ok { value := RVal.undef, link := none, color := none, background := none } ∧
    fieldOther.values = [JsVal.str "x"] ∧
    (toObject [⟨[fieldOther]⟩]).map
        (fun s => (lookupKey s "0").map (fun c => c.data.map (fun cl => cl.value))) =
      Except.ok (some [RVal.undef]) ∧
    RVal.undef ≠ RVal.rawVal (JsVal.str "x") :=
  ⟨rfl, rfl, rfl, by decide⟩

/-- C4 amended: for every field whose declared type is none of time, number,
boolean or string, every successfully resolved cell carries the value
`undefined` (left unset), not the raw value. -/
theorem C4_other_type_undef (f : Field) (i : Nat) (cell : DataCell)
    (ht : f.type = FieldType.other) (h : resolveCell f i = Except.ok cell) :
    cell.value = RVal.undef := by
  simp only [resolveCell, ht] at h
  split at h
  · exact absurd h (by simp)
  · rename_i heq
    split at h <;> cases h <;> rfl

/-- C4 witness: the amended theorem applied to a concrete other-typed field. -/
theorem C4_other_type_undef_witness :
    ({ value := RVal.undef, link := none, color := none, background := none } : DataCell).value =
      RVal.undef :=
  C4_other_type_undef fieldOther 0 _ rfl rfl

/-- C7 counterexample: the unit `"datime:X"` does not start with `"time:"`
(the claim then demands the system full-date format), but it CONTAINS
`"time:"`, so the code strips that occurrence and yields `"daX"`. -/
theorem C7_fmt_cex :
    stripPat ("time:".toList) ("datime:X".toList) = none ∧
    computeFmt FieldType.time (some "datime:X") = some "daX" ∧
    ("daX" : String) ≠ sysFullDate :=
  ⟨rfl, rfl, by decide⟩

/-- C7 amended: a time field whose unit CONTAINS `"time:"` gets the unit
with the first such occurrence removed (in particular `"time:YYYY-MM-DD"`
gives `"YYYY-MM-DD"`); a time field whose unit does not contain `"time:"`
(or has no unit) gets the system full-date format; a non-time field gets no
format string. -/
theorem C7_fmt_amended :
    (∀ u : String, includesSub u "time:" = true →
      computeFmt FieldType.time (some u) = some (replaceFirst u "time:")) ∧
    (∀ u : String, includesSub u "time:" = false →
      computeFmt FieldType.time (some u) = some sysFullDate) ∧
    computeFmt FieldType.time none = some sysFullDate ∧
    (∀ (t : FieldType) (u : Option String), t ≠ FieldType.time → computeFmt t u = none) ∧
    computeFmt FieldType.time (some "time:YYYY-MM-DD") = some "YYYY-MM-DD" := by
  refine ⟨fun u h => ?_, fun u h => ?_, rfl, fun t u ht => ?_, rfl⟩
  · simp [computeFmt, h]
  · simp [computeFmt, h]
  · simp [computeFmt, ht]

/-- C7 witness: the amended theorem applied to the unit `"time:YYYY-MM-DD"`. -/
theorem C7_fmt_amended_witness :
    computeFmt FieldType.time (some "time:YYYY-MM-DD") =
      some (replaceFirst "time:YYYY-MM-DD" "time:") :=
  C7_fmt_amended.1 "time:YYYY-MM-DD" rfl

/-- C8 counterexample: a `color-background` cell whose display color is the
malformed hex string `"#12345"` makes the contrast computation raise and the
whole conversion abort (`toObject` returns an error), instead of the claimed
per-cell fallback with the export continuing. -/
theorem C8_abort_cex :
    getTextColor (some "#12345") = Except.error () ∧
    toObject [⟨[fieldBadColor]⟩] = Except.error () :=
  ⟨rfl, rfl⟩

/-- C8 amended: a display color that is neither absent nor the empty string
and does not match `^#(..)(..)(..)$` after 3-digit expansion makes the
contrast computation raise (`Except.error`), and that error propagates out
of the per-cell resolution — the export is aborted, with no per-cell
fallback. -/
theorem C8_abort_amended :
    (∀ s : String, s ≠ "" →
      hexTripleMatch (if s.length = 4 then expand3 s else s) = none →
      getTextColor (some s) = Except.error ()) ∧
    (∀ (f : Field) (i : Nat),
      (f.config.custom.bind (fun c => c.cellOptions)).map (fun o => o.type) =
        some "color-background" →
      getTextColor ((f.display.map (fun disp => disp (f.values.getD i JsVal.undef))).bind
        (fun d => d.color)) = Except.error () →
      resolveCell f i = Except.error ()) := by
  constructor
  · intro s hs hm
    simp [getTextColor, hs, hm]
  · intro f i hco htc
    simp at htc
    simp [resolveCell, hco, htc]

/-- C8 witness: the amended theorem applied to the malformed color
`"#12345"` and to a concrete cell carrying it. -/
theorem C8_abort_amended_witness :
    getTextColor (some "#12345") = Except.error () ∧
    resolveCell fieldBadColor 0 = Except.error () :=
  ⟨C8_abort_amended.1 "#12345" (by decide) rfl,
   C8_abort_amended.2 fieldBadColor 0 rfl rfl⟩

/-- C9 counterexample: a field with no `custom` configuration block never
gets a ColumnSpec at all — `fieldConfig.custom.width` raises — so the
claimed defaults (hidden false, width 150) are not applied to it. -/
theorem C9_defaults_cex :
    fieldNoCustom.config.custom = none ∧
    mkColumn fieldNoCustom = Except.error () :=
  ⟨rfl, rfl⟩

/-- C9 amended: for every field whose `custom` configuration block is
present, the ColumnSpec applies the documented defaults — hidden defaults to
false, a configured `auto` alignment collapses to an unset alignment (and
the stored alignment is never `auto`), and the width defaults to 150 when
unspecified; for a field without a `custom` block the construction raises
instead. -/
theorem C9_defaults_amended :
    (∀ (f : Field) (c : FieldConfigCustom), f.config.custom = some c →
      ∃ col, mkColumn f = Except.ok col ∧
        col.hidden = c.hidden.getD false ∧
        (c.hidden = none → col.hidden = false) ∧
        col.width = c.width.getD 150 ∧
        (c.width = none → col.width = 150) ∧
        col.align = (if c.align = some AlignVal.auto then none else c.align) ∧
        (c.align = some AlignVal.auto → col.align = none) ∧
        col.align ≠ some AlignVal.auto) ∧
    (∀ f : Field, f.config.custom = none → mkColumn f = Except.error ()) := by
  constructor
  · intro f c hc
    have hm : mkColumn f = Except.ok
        { name := f.name, data := [], type := f.type
          hidden := c.hidden.getD false
          width := c.width.getD 150
          align := if c.align = some AlignVal.auto then none else c.align
          fmt := computeFmt f.type f.config.unit } := by
      simp [mkColumn, hc]
    refine ⟨_, hm, rfl, fun h => by simp [h], rfl, fun h => by simp [h],
      rfl, fun h => by simp [h], ?_⟩
    by_cases h : c.align = some AlignVal.auto
    · simp [h]
    · simp [h]
  · intro f hc
    simp [mkColumn, hc]

/-- C9 witness: the amended theorem applied to a field with an `auto`
alignment and no width. -/
theorem C9_defaults_amended_witness :
    ∃ col, mkColumn fieldAuto = Except.ok col ∧
      col.hidden = false ∧ col.width = 150 ∧ col.align = none := by
  obtain ⟨col, h1, _, h3, _, h5, _, h7, _⟩ :=
    C9_defaults_amended.1 fieldAuto
      { hidden := none, width := none, align := some AlignVal.auto, cellOptions := none } rfl
  exact ⟨col, h1, h3 rfl, h5 rfl, h7 rfl⟩

/-- C5: for every cell with a `color-background` cell-option (whose contrast
computation succeeds, yielding `tc`) and at least one resolved link, the
resolved cell records the first link's title and target, its foreground
color is the fixed link color `#3B5586` (overriding the contrast color),
and its background is the display color. -/
theorem C5_link_override (f : Field) (i : Nat) (g : Nat → List DataLinkRes)
    (l : DataLinkRes) (ls : List DataLinkRes) (tc : Option String)
    (hco : (f.config.custom.bind (fun c => c.cellOptions)).map (fun o => o.type) =
      some "color-background")
    (hg : f.getLinks = some g) (hl : g i = l :: ls)
    (htc : getTextColor ((f.display.map (fun disp => disp (f.values.getD i JsVal.undef))).bind
      (fun d => d.color)) = Except.ok tc) :
    ∃ cell, resolveCell f i = Except.ok cell ∧
      cell.link = some { title := l.title, href := l.href } ∧
      cell.color = some "#3B5586" ∧
      cell.background = (f.display.map (fun disp => disp (f.values.getD i JsVal.undef))).bind
        (fun d => d.color) := by
  simp at htc
  simp [resolveCell, hco, hg, hl, htc]

/-- C5 witness: the theorem applied to a concrete `color-background` field
with one link. -/
theorem C5_link_override_witness :
    ∃ cell, resolveCell fieldLink 0 = Except.ok cell ∧
      cell.link = some { title := some "T", href := "http://x" } ∧
      cell.color = some "#3B5586" ∧
      cell.background = (fieldLink.display.map
        (fun disp => disp (fieldLink.values.getD 0 JsVal.undef))).bind (fun d => d.color) :=
  C5_link_override fieldLink 0 gLinks { title := some "T", href := "http://x" } []
    (some "FFFFFF") rfl rfl rfl
    (by
      rw [show ((fieldLink.display.map
          (fun disp => disp (fieldLink.values.getD 0 JsVal.undef))).bind (fun d => d.color)) =
        some "#000000" from rfl]
      exact getTextColor_black000)

/-- C6 counterexample: at the color `#da3af8` (R=218, G=58, B=248) the
EXACT luminance `(0.299R + 0.587G + 0.114B)/255` is exactly 0.5, so the
claim's formula ("black when L > 0.5 and pure white otherwise") requires
white; but the source evaluates the formula in IEEE double precision,
where it comes out one ulp above 0.5, and returns black. -/
theorem C6_tie_cex :
    ((0.299 * 218 + 0.587 * 58 + 0.114 * 248 : ℚ) / 255 = 0.5) ∧
    contrastSpec "#da3af8" = "FFFFFF" ∧
    getTextColor (some "#da3af8") = Except.ok (some "000000") := by
  refine ⟨by norm_num, ?_, ?_⟩
  · rw [show ("#da3af8" : String) = String.mk ['#', 'd', 'a', '3', 'a', 'f', '8'] from rfl,
      contrastSpec_hex6 'd' 'a' '3' 'a' 'f' '8' 13 10 3 10 15 8 rfl rfl rfl rfl rfl rfl]
    norm_num
  · rw [show ("#da3af8" : String) = String.mk ['#', 'd', 'a', '3', 'a', 'f', '8'] from rfl,
      getTextColor_hex6 'd' 'a' '3' 'a' 'f' '8' 13 10 3 10 15 8 rfl rfl rfl rfl rfl rfl]
    norm_num [lumF_tie]

/-- C6 amended: on every well-formed 3- or 6-digit hex RGB color (a `#`
followed by hex digits), `getTextColor` agrees with the spec's contrast
algorithm with its luminance formula evaluated in IEEE double-precision
arithmetic, as the source's JS actually computes it (`contrastSpecF`:
expand 3-digit shorthand by duplicating each channel digit, luminance
`L = (0.299R + 0.587G + 0.114B) / 255` in binary64, black iff the computed
`L > 0.5`, else white); in particular it returns white for `"#000000"`,
black for `"#FFFFFF"` and black for `"#fff"`; and an absent color yields
an unset result. -/
theorem C6_contrast_amended :
    (∀ a b c d e f : Char,
      (hexVal? a).isSome = true → (hexVal? b).isSome = true → (hexVal? c).isSome = true →
      (hexVal? d).isSome = true → (hexVal? e).isSome = true → (hexVal? f).isSome = true →
      getTextColor (some (String.mk ['#', a, b, c, d, e, f])) =
        Except.ok (some (contrastSpecF (String.mk ['#', a, b, c, d, e, f])))) ∧
    (∀ a b c : Char,
      (hexVal? a).isSome = true → (hexVal? b).isSome = true → (hexVal? c).isSome = true →
      getTextColor (some (String.mk ['#', a, b, c])) =
        Except.ok (some (contrastSpecF (String.mk ['#', a, b, c])))) ∧
    getTextColor (some "#000000") = Except.ok (some "FFFFFF") ∧
    getTextColor (some "#FFFFFF") = Except.ok (some "000000") ∧
    getTextColor (some "#fff") = Except.ok (some "000000") ∧
    getTextColor none = Except.ok none := by
  refine ⟨fun a b c d e f ha hb hc hd he hf => ?_, fun a b c ha hb hc => ?_,
    getTextColor_black000, ?_, ?_, rfl⟩
  · obtain ⟨va, hva⟩ := Option.isSome_iff_exists.mp ha
    obtain ⟨vb, hvb⟩ := Option.isSome_iff_exists.mp hb
    obtain ⟨vc, hvc⟩ := Option.isSome_iff_exists.mp hc
    obtain ⟨vd, hvd⟩ := Option.isSome_iff_exists.mp hd
    obtain ⟨ve, hve⟩ := Option.isSome_iff_exists.mp he
    obtain ⟨vf, hvf⟩ := Option.isSome_iff_exists.mp hf
    rw [getTextColor_hex6 a b c d e f va vb vc vd ve vf hva hvb hvc hvd hve hvf,
      contrastSpecF_hex6 a b c d e f va vb vc vd ve vf hva hvb hvc hvd hve hvf]
  · obtain ⟨va, hva⟩ := Option.isSome_iff_exists.mp ha
    obtain ⟨vb, hvb⟩ := Option.isSome_iff_exists.mp hb
    obtain ⟨vc, hvc⟩ := Option.isSome_iff_exists.mp hc
    rw [getTextColor_hex3 a b c va vb vc hva hvb hvc,
      contrastSpecF_hex3 a b c va vb vc hva hvb hvc]
  · rw [show ("#FFFFFF" : String) = String.mk ['#', 'F', 'F', 'F', 'F', 'F', 'F'] from rfl,
      getTextColor_hex6 'F' 'F' 'F' 'F' 'F' 'F' 15 15 15 15 15 15 rfl rfl rfl rfl rfl rfl]
    norm_num [lumF_255]
  · rw [show ("#fff" : String) = String.mk ['#', 'f', 'f', 'f'] from rfl,
      getTextColor_hex3 'f' 'f' 'f' 15 15 15 rfl rfl rfl]
    norm_num [lumF_255]

/-- C6 witness: the amended agreement applied to the concrete color
`"#123456"`. -/
theorem C6_contrast_amended_witness :
    getTextColor (some (String.mk ['#', '1', '2', '3', '4', '5', '6'])) =
      Except.ok (some (contrastSpecF (String.mk ['#', '1', '2', '3', '4', '5', '6']))) :=
  C6_contrast_amended.1 '1' '2' '3' '4' '5' '6' rfl rfl rfl rfl rfl rfl

end GrafanaExport
